import Mathlib

set_option maxHeartbeats 1000000

/- Shallow embedding of the Taubert robot control core (`src/taubert`):
   the STS3215 serial protocol codec, the two actuator driver variants
   (`ServoMotor`, `STS3215Motor`), the group controllers
   (`ServoController`, `MotorController`) and the three-wheel
   omnidirectional drive (`OmniDrive`).  Serial I/O is modelled by a
   `Transport` oracle whose operations either return bytes or raise a
   transport-level exception (`Except.error`); Python `try/except` blocks
   in the source appear as `match` arms mapping `.error` to the failure
   value, and source code without such a block propagates `.error`. -/

/-- Transport-level fault: a serial exception raised by the external
serial channel during open, close, write or read. -/
inductive TransportErr where
  | ioError : TransportErr
deriving DecidableEq

/-- Behaviour of the external serial transport for one driver: the outcome
of opening the port (`serial.Serial(...)`), of closing it, and of a
combined write-flush-wait-read exchange for a given outbound packet
(`Except.ok none` models `in_waiting == 0` after the fixed delay,
`Except.ok (some bytes)` models bytes read back, `Except.error` models a
raised serial exception anywhere in the exchange). -/
structure Transport where
  openRes : Except TransportErr Unit
  closeRes : Except TransportErr Unit
  send : List Nat → Except TransportErr (Option (List Nat))

/-- State of one `ServoMotor` instance (`servo.py`): servo id, the
`is_connected` flag, whether `_serial` holds a handle (`_serial is not
None`), and the locally cached position and speed. -/
structure ServoState where
  servo_id : Nat
  is_connected : Bool
  has_serial : Bool
  current_position : Int
  current_speed : Int
deriving DecidableEq

/-- State of one `STS3215Motor` instance (`servo.py`): motor id, the
`is_connected` flag, whether `_serial` holds a handle, and the locally
cached position and speed. -/
structure STSState where
  motor_id : Nat
  is_connected : Bool
  has_serial : Bool
  current_position : Int
  current_speed : Int
deriving DecidableEq

namespace ServoMotor

/-- `ServoMotor.connect`: tries to open the serial port; on success sets
`is_connected`, on a raised exception the `except` clause clears
`is_connected` and reports failure. -/
def connect (st : ServoState) (tr : Transport) : Bool × ServoState :=
  match tr.openRes with
  | .ok _ => (true, { st with has_serial := true, is_connected := true })
  | .error _ => (false, { st with is_connected := false })

/-- `ServoMotor.disconnect`: closes the serial handle when present and
connected.  The source wraps `self._serial.close()` in no `try/except`,
so an exception raised by `close` propagates to the caller. -/
def disconnect (st : ServoState) (tr : Transport) :
    Except TransportErr ServoState :=
  if st.has_serial && st.is_connected then
    match tr.closeRes with
    | .error e => .error e
    | .ok _ => .ok { st with is_connected := false }
  else
    .ok st

/-- `ServoMotor._send_command`: refuses when not connected or without a
serial handle; otherwise writes the bytes and polls for a response, with
the whole exchange wrapped in `try/except` mapping exceptions to `None`.
The second component records the byte sequences written to the
transport. -/
def sendCommand (st : ServoState) (tr : Transport)
    (commandBytes : List Nat) : Option (List Nat) × List (List Nat) :=
  if !st.is_connected || !st.has_serial then (none, [])
  else
    match tr.send commandBytes with
    | .error _ => (none, [commandBytes])
    | .ok resp => (resp, [commandBytes])

/-- `ServoMotor.set_position`: logs, overwrites `current_position` (and
`current_speed` when a speed is given) and returns `True`.  The source
performs no range validation, no connection check and no transport
access. -/
def set_position (st : ServoState) (position : Int)
    (speed : Option Int) : Bool × ServoState :=
  (true, { st with
    current_position := position,
    current_speed := speed.getD st.current_speed })

/-- `ServoMotor.get_position`: returns the cached `current_position`
without touching the transport. -/
def get_position (st : ServoState) : Int :=
  st.current_position

/-- `ServoMotor.stop`: logs and returns `True`; no transport access. -/
def stop (_st : ServoState) : Bool :=
  true

end ServoMotor

namespace ServoController

/-- Loop body of `ServoController.connect_all`: connect each servo in
registration order, accumulating the `success` flag; `trs i` is the
transport open outcome for the servo at position `i`. -/
def connectAllAux (servos : List ServoState) (trs : Nat → Transport)
    (i : Nat) (success : Bool) : Bool × List ServoState :=
  match servos with
  | [] => (success, [])
  | s :: rest =>
    let r := ServoMotor.connect s (trs i)
    let t := connectAllAux rest trs (i + 1) (success && r.1)
    (t.1, r.2 :: t.2)

/-- `ServoController.connect_all`: connects every servo in order and
returns `True` only if every connection succeeded. -/
def connect_all (servos : List ServoState) (trs : Nat → Transport) :
    Bool × List ServoState :=
  connectAllAux servos trs 0 true

end ServoController

namespace STS3215Motor

/-- Command code for renaming a motor. -/
def CMD_WRITE_ID : Nat := 0x01

/-- Command code for reading the position. -/
def CMD_READ_POSITION : Nat := 0x02

/-- Command code for setting the position. -/
def CMD_SET_POSITION : Nat := 0x03

/-- Command code for reading the speed. -/
def CMD_READ_SPEED : Nat := 0x04

/-- Command code for setting the speed. -/
def CMD_SET_SPEED : Nat := 0x05

/-- Command code for stopping the motor. -/
def CMD_STOP : Nat := 0x06

/-- `STS3215Motor._calculate_checksum`: arithmetic sum of the given bytes
modulo 256. -/
def calculateChecksum (data : List Nat) : Nat :=
  data.sum % 256

/-- Packet built inside `STS3215Motor._send_command`: header `0xFF 0xFF`,
motor id, length byte `len(data) + 2`, command byte, payload, then a
checksum over everything after the two header bytes. -/
def buildPacket (motorId command : Nat) (data : List Nat) : List Nat :=
  let len := data.length + 2
  let packet := [0xFF, 0xFF, motorId, len, command] ++ data
  packet ++ [calculateChecksum (packet.drop 2)]

/-- `STS3215Motor.connect`: tries to open the serial port; on success sets
`is_connected`, on a raised exception the `except` clause clears
`is_connected` and reports failure. -/
def connect (st : STSState) (tr : Transport) : Bool × STSState :=
  match tr.openRes with
  | .ok _ => (true, { st with has_serial := true, is_connected := true })
  | .error _ => (false, { st with is_connected := false })

/-- `STS3215Motor.disconnect`: closes the serial handle when present and
connected.  As in `ServoMotor.disconnect`, `self._serial.close()` is not
wrapped in `try/except`, so an exception raised by `close` propagates. -/
def disconnect (st : STSState) (tr : Transport) :
    Except TransportErr STSState :=
  if st.has_serial && st.is_connected then
    match tr.closeRes with
    | .error e => .error e
    | .ok _ => .ok { st with is_connected := false }
  else
    .ok st

/-- `STS3215Motor._send_command`: refuses when not connected or without a
serial handle; otherwise builds the packet, writes it and polls for a
response, with the exchange wrapped in `try/except` mapping exceptions to
`None`.  The second component records the packets written to the
transport. -/
def sendCommand (st : STSState) (tr : Transport) (command : Nat)
    (data : List Nat) : Option (List Nat) × List (List Nat) :=
  if !st.is_connected || !st.has_serial then (none, [])
  else
    let packet := buildPacket st.motor_id command data
    match tr.send packet with
    | .error _ => (none, [packet])
    | .ok resp => (resp, [packet])

/-- Python truthiness of the `Optional[bytes]` response: `None` and the
empty byte string are falsy, a non-empty byte string is truthy. -/
def isTruthy : Option (List Nat) → Bool
  | some (_ :: _) => true
  | _ => false

/-- Python `value.to_bytes(2, byteorder='little')` for the range-checked
values used here (all below 65536). -/
def toBytesLE2 (v : Nat) : List Nat :=
  [v % 256, v / 256]

/-- `STS3215Motor.set_id`: validates the 1-254 range, sends `WRITE_ID`,
and updates the local id only on a truthy response. -/
def set_id (st : STSState) (tr : Transport) (newId : Nat) :
    Bool × STSState × List (List Nat) :=
  if newId < 1 || 254 < newId then (false, st, [])
  else
    let r := sendCommand st tr CMD_WRITE_ID [newId]
    if isTruthy r.1 then (true, { st with motor_id := newId }, r.2)
    else (false, st, r.2)

/-- `STS3215Motor.set_position`: validates the 0-4095 range, encodes the
position little-endian over two bytes, sends `SET_POSITION`, and updates
`current_position` only on a truthy response. -/
def set_position (st : STSState) (tr : Transport) (position : Int) :
    Bool × STSState × List (List Nat) :=
  if position < 0 || 4095 < position then (false, st, [])
  else
    let positionBytes := toBytesLE2 position.toNat
    let r := sendCommand st tr CMD_SET_POSITION positionBytes
    if isTruthy r.1 then (true, { st with current_position := position }, r.2)
    else (false, st, r.2)

/-- `STS3215Motor.set_speed`: validates the 0-1023 range, encodes the
speed little-endian over two bytes, sends `SET_SPEED`, and updates
`current_speed` only on a truthy response. -/
def set_speed (st : STSState) (tr : Transport) (speed : Int) :
    Bool × STSState × List (List Nat) :=
  if speed < 0 || 1023 < speed then (false, st, [])
  else
    let speedBytes := toBytesLE2 speed.toNat
    let r := sendCommand st tr CMD_SET_SPEED speedBytes
    if isTruthy r.1 then (true, { st with current_speed := speed }, r.2)
    else (false, st, r.2)

/-- `STS3215Motor.get_position`: sends `READ_POSITION`; a response of at
least 6 bytes yields the little-endian value of bytes 4 and 5 and
refreshes `current_position`, anything else is a read failure. -/
def get_position (st : STSState) (tr : Transport) :
    Option Int × STSState × List (List Nat) :=
  let r := sendCommand st tr CMD_READ_POSITION []
  match r.1 with
  | some resp =>
    if 6 ≤ resp.length then
      let position : Int := ((resp.getD 4 0) + (resp.getD 5 0) * 256 : Nat)
      (some position, { st with current_position := position }, r.2)
    else (none, st, r.2)
  | none => (none, st, r.2)

/-- `STS3215Motor.get_speed`: sends `READ_SPEED`; a response of at least
6 bytes yields the little-endian value of bytes 4 and 5 and refreshes
`current_speed`, anything else is a read failure. -/
def get_speed (st : STSState) (tr : Transport) :
    Option Int × STSState × List (List Nat) :=
  let r := sendCommand st tr CMD_READ_SPEED []
  match r.1 with
  | some resp =>
    if 6 ≤ resp.length then
      let speed : Int := ((resp.getD 4 0) + (resp.getD 5 0) * 256 : Nat)
      (some speed, { st with current_speed := speed }, r.2)
    else (none, st, r.2)
  | none => (none, st, r.2)

/-- `STS3215Motor.stop`: sends `STOP` with no payload and succeeds on a
truthy response. -/
def stop (st : STSState) (tr : Transport) : Bool × List (List Nat) :=
  let r := sendCommand st tr CMD_STOP []
  (isTruthy r.1, r.2)

end STS3215Motor

namespace MotorController

/-- Loop body of `MotorController.connect_all`: connect each motor in
registration order, accumulating the `success` flag. -/
def connectAllAux (motors : List STSState) (trs : Nat → Transport)
    (i : Nat) (success : Bool) : Bool × List STSState :=
  match motors with
  | [] => (success, [])
  | m :: rest =>
    let r := STS3215Motor.connect m (trs i)
    let t := connectAllAux rest trs (i + 1) (success && r.1)
    (t.1, r.2 :: t.2)

/-- `MotorController.connect_all`: connects every motor in order and
returns `True` only if every connection succeeded. -/
def connect_all (motors : List STSState) (trs : Nat → Transport) :
    Bool × List STSState :=
  connectAllAux motors trs 0 true

end MotorController

/-- State of an `OmniDrive` instance: the three `ServoMotor` states bound
at construction (the constructor rejects any servo count other than
three, so the collection is modelled as a triple in wheel order). -/
structure OmniState where
  s0 : ServoState
  s1 : ServoState
  s2 : ServoState
deriving DecidableEq

namespace OmniDrive

/-- Python `max(lo, min(hi, x))` clamp on floats, as used on each drive
input. -/
noncomputable def clampR (lo hi x : ℝ) : ℝ :=
  max lo (min hi x)

/-- Python `int()` conversion of a float: truncation toward zero. -/
noncomputable def pyInt (x : ℝ) : ℤ :=
  if 0 ≤ x then ⌊x⌋ else ⌈x⌉

/-- `self.wheel_angles = [0, 2*math.pi/3, 4*math.pi/3]`. -/
noncomputable def wheel_angles : List ℝ :=
  [0, 2 * Real.pi / 3, 4 * Real.pi / 3]

/-- `self.max_speed = 1023`. -/
def max_speed : ℤ := 1023

/-- Body of the `calculate_wheel_speeds` loop for one wheel angle:
`wheel_speed = vx*cos(angle) + vy*sin(angle) + omega`, scaled by
`max_speed`, truncated by `int()`, then clamped to
`[-max_speed, max_speed]`. -/
noncomputable def wheelSpeedAt (vx vy omega angle : ℝ) : ℤ :=
  let wheelSpeed := vx * Real.cos angle + vy * Real.sin angle + omega
  let scaled := pyInt (wheelSpeed * 1023)
  max (-max_speed) (min max_speed scaled)

/-- `OmniDrive.calculate_wheel_speeds`: clamps each input to
`[-1.0, 1.0]`, then applies the loop body to each of the three fixed
wheel angles. -/
noncomputable def calculate_wheel_speeds (vx vy omega : ℝ) : List ℤ :=
  let vx := clampR (-1) 1 vx
  let vy := clampR (-1) 1 vy
  let omega := clampR (-1) 1 omega
  wheel_angles.map (wheelSpeedAt vx vy omega)

/-- `OmniDrive.move`: computes the wheel speeds, then for each servo `i`
issues `set_position(2048 + wheel_speeds[i] // 2, abs(wheel_speeds[i]))`
(Python `//` is floor division, hence `Int.fdiv`), and succeeds only if
every `set_position` call succeeded. -/
noncomputable def move (vx vy omega : ℝ) (st : OmniState) :
    Bool × OmniState :=
  let wheelSpeeds := calculate_wheel_speeds vx vy omega
  let w0 := wheelSpeeds.getD 0 0
  let w1 := wheelSpeeds.getD 1 0
  let w2 := wheelSpeeds.getD 2 0
  let r0 := ServoMotor.set_position st.s0 (2048 + Int.fdiv w0 2) (some |w0|)
  let r1 := ServoMotor.set_position st.s1 (2048 + Int.fdiv w1 2) (some |w1|)
  let r2 := ServoMotor.set_position st.s2 (2048 + Int.fdiv w2 2) (some |w2|)
  (r0.1 && r1.1 && r2.1, ⟨r0.2, r1.2, r2.2⟩)

/-- `OmniDrive.move_forward`: `return self.move(0, speed, 0)`. -/
noncomputable def move_forward (speed : ℝ) (st : OmniState) :
    Bool × OmniState :=
  move 0 speed 0 st

end OmniDrive

/- Helper lemmas about the fixed wheel angles and the scaling of √3. -/

/-- The sine of the second wheel angle, 120 degrees. -/
lemma sin_second_angle : Real.sin (2 * Real.pi / 3) = Real.sqrt 3 / 2 := by
  have h : 2 * Real.pi / 3 = Real.pi - Real.pi / 3 := by ring
  rw [h, Real.sin_pi_sub, Real.sin_pi_div_three]

/-- The cosine of the second wheel angle, 120 degrees. -/
lemma cos_second_angle : Real.cos (2 * Real.pi / 3) = -(1 / 2) := by
  have h : 2 * Real.pi / 3 = Real.pi - Real.pi / 3 := by ring
  rw [h, Real.cos_pi_sub, Real.cos_pi_div_three]

/-- The sine of the third wheel angle, 240 degrees. -/
lemma sin_third_angle : Real.sin (4 * Real.pi / 3) = -(Real.sqrt 3 / 2) := by
  have h : 4 * Real.pi / 3 = Real.pi + Real.pi / 3 := by ring
  rw [h, Real.sin_add, Real.sin_pi, Real.cos_pi, Real.sin_pi_div_three]
  ring

/-- The cosine of the third wheel angle, 240 degrees. -/
lemma cos_third_angle : Real.cos (4 * Real.pi / 3) = -(1 / 2) := by
  have h : 4 * Real.pi / 3 = Real.pi + Real.pi / 3 := by ring
  rw [h, Real.cos_add, Real.sin_pi, Real.cos_pi, Real.cos_pi_div_three]
  ring

/-- Lower rational bound on √3 tight enough to pin down `⌊1023·√3/2⌋`. -/
lemma sqrt3_lb : (1770 : ℝ) / 1023 ≤ Real.sqrt 3 := by
  have hs : Real.sqrt 3 ^ 2 = 3 := Real.sq_sqrt (by norm_num)
  have h0 : (0 : ℝ) ≤ Real.sqrt 3 := Real.sqrt_nonneg 3
  nlinarith [hs, h0]

/-- Upper rational bound on √3 tight enough to pin down `⌊1023·√3/2⌋`. -/
lemma sqrt3_ub : Real.sqrt 3 < (1772 : ℝ) / 1023 := by
  have hs : Real.sqrt 3 ^ 2 = 3 := Real.sq_sqrt (by norm_num)
  have h0 : (0 : ℝ) ≤ Real.sqrt 3 := Real.sqrt_nonneg 3
  nlinarith [hs, h0]

/-- The truncated scaled sine of 120 degrees: `int(sin(2π/3) * 1023)`
equals 885 (not 886: `1023·√3/2 ≈ 885.94`). -/
lemma floor_scaled_sin : ⌊Real.sqrt 3 / 2 * 1023⌋ = (885 : ℤ) := by
  have h1 : ((885 : ℤ) : ℝ) ≤ Real.sqrt 3 / 2 * 1023 := by
    have := sqrt3_lb
    push_cast
    nlinarith
  have h2 : Real.sqrt 3 / 2 * 1023 < (885 : ℤ) + 1 := by
    have := sqrt3_ub
    push_cast
    nlinarith
  exact Int.floor_eq_iff.mpr ⟨h1, h2⟩

/-- On a nonnegative float, Python `int()` is the floor. -/
lemma pyInt_of_nonneg (x : ℝ) (h : 0 ≤ x) : OmniDrive.pyInt x = ⌊x⌋ :=
  if_pos h

/-- On a negative float, Python `int()` is the ceiling. -/
lemma pyInt_of_neg (x : ℝ) (h : x < 0) : OmniDrive.pyInt x = ⌈x⌉ :=
  if_neg (not_le.mpr h)

/-- The scaled wheel value of the first wheel at drive input (0, 1, 0). -/
lemma scaled_arg0 : (0 * Real.cos (0 : ℝ) + 1 * Real.sin 0 + 0) * 1023 = 0 := by
  simp

/-- The scaled wheel value of the second wheel at drive input (0, 1, 0). -/
lemma scaled_arg1 :
    (0 * Real.cos (2 * Real.pi / 3) + 1 * Real.sin (2 * Real.pi / 3) + 0) * 1023
      = Real.sqrt 3 / 2 * 1023 := by
  rw [sin_second_angle]
  ring

/-- The scaled wheel value of the third wheel at drive input (0, 1, 0). -/
lemma scaled_arg2 :
    (0 * Real.cos (4 * Real.pi / 3) + 1 * Real.sin (4 * Real.pi / 3) + 0) * 1023
      = -(Real.sqrt 3 / 2 * 1023) := by
  rw [sin_third_angle]
  ring

/-- The scaled sine of 120 degrees is positive. -/
lemma scaled_sin_pos : (0 : ℝ) < Real.sqrt 3 / 2 * 1023 := by
  have h := sqrt3_lb
  nlinarith

/-- Truncation of the first wheel's scaled value at input (0, 1, 0). -/
lemma pyInt_arg0 :
    OmniDrive.pyInt ((0 * Real.cos (0 : ℝ) + 1 * Real.sin 0 + 0) * 1023) = 0 := by
  rw [scaled_arg0, pyInt_of_nonneg _ le_rfl, Int.floor_zero]

/-- Truncation of the second wheel's scaled value at input (0, 1, 0). -/
lemma pyInt_arg1 :
    OmniDrive.pyInt
      ((0 * Real.cos (2 * Real.pi / 3) + 1 * Real.sin (2 * Real.pi / 3) + 0) * 1023)
      = 885 := by
  rw [scaled_arg1, pyInt_of_nonneg _ (le_of_lt scaled_sin_pos), floor_scaled_sin]

/-- Truncation of the third wheel's scaled value at input (0, 1, 0). -/
lemma pyInt_arg2 :
    OmniDrive.pyInt
      ((0 * Real.cos (4 * Real.pi / 3) + 1 * Real.sin (4 * Real.pi / 3) + 0) * 1023)
      = -885 := by
  rw [scaled_arg2, pyInt_of_neg _ (neg_lt_zero.mpr scaled_sin_pos), Int.ceil_neg,
    floor_scaled_sin]

/-- Per-wheel loop body evaluated at input (0, 1, 0), wheel angle 0. -/
lemma wheelSpeedAt_eval0 : OmniDrive.wheelSpeedAt 0 1 0 0 = 0 := by
  simp only [OmniDrive.wheelSpeedAt, pyInt_arg0, OmniDrive.max_speed]
  decide

/-- Per-wheel loop body evaluated at input (0, 1, 0), wheel angle 120
degrees: 885, the truncation of 1023·√3/2 ≈ 885.94. -/
lemma wheelSpeedAt_eval1 : OmniDrive.wheelSpeedAt 0 1 0 (2 * Real.pi / 3) = 885 := by
  simp only [OmniDrive.wheelSpeedAt, pyInt_arg1, OmniDrive.max_speed]
  decide

/-- Per-wheel loop body evaluated at input (0, 1, 0), wheel angle 240
degrees. -/
lemma wheelSpeedAt_eval2 : OmniDrive.wheelSpeedAt 0 1 0 (4 * Real.pi / 3) = -885 := by
  simp only [OmniDrive.wheelSpeedAt, pyInt_arg2, OmniDrive.max_speed]
  decide

/-- The wheel-speed map over the three angles at clamped input (0, 1, 0). -/
lemma map_eval_0_1_0 :
    OmniDrive.wheel_angles.map (OmniDrive.wheelSpeedAt 0 1 0) = [0, 885, -885] := by
  simp only [OmniDrive.wheel_angles, List.map_cons, List.map_nil,
    wheelSpeedAt_eval0, wheelSpeedAt_eval1, wheelSpeedAt_eval2]

/-- Clamp of 0 to the unit interval. -/
lemma clampR_eval_zero : OmniDrive.clampR (-1) 1 0 = 0 := by
  norm_num [OmniDrive.clampR]

/-- Clamp of 1 to the unit interval. -/
lemma clampR_eval_one : OmniDrive.clampR (-1) 1 1 = 1 := by
  norm_num [OmniDrive.clampR]

/-- Clamp of 2 to the unit interval. -/
lemma clampR_eval_two : OmniDrive.clampR (-1) 1 2 = 1 := by
  norm_num [OmniDrive.clampR]

/-- The kinematics at drive input (0, 1, 0). -/
lemma calc_0_1_0 : OmniDrive.calculate_wheel_speeds 0 1 0 = [0, 885, -885] := by
  simp only [OmniDrive.calculate_wheel_speeds, clampR_eval_zero, clampR_eval_one]
  exact map_eval_0_1_0

/-- The kinematics at drive input (0, 2, 0): the inputs are clamped to
(0, 1, 0) first. -/
lemma calc_0_2_0 : OmniDrive.calculate_wheel_speeds 0 2 0 = [0, 885, -885] := by
  simp only [OmniDrive.calculate_wheel_speeds, clampR_eval_zero, clampR_eval_two]
  exact map_eval_0_1_0

/-- Pre-clamp truncation map at input (0, 1, 0). -/
lemma truncation_map_0_1_0 :
    OmniDrive.wheel_angles.map
      (fun angle => OmniDrive.pyInt ((0 * Real.cos angle + 1 * Real.sin angle + 0) * 1023))
      = [0, 885, -885] := by
  simp only [OmniDrive.wheel_angles, List.map_cons, List.map_nil,
    pyInt_arg0, pyInt_arg1, pyInt_arg2]

/-- C3 counterexample: `calculate_wheel_speeds(0, 1, 0)` is not
`[0, 886, -886]` — the truncation toward zero of 1023·sin(120°) ≈ 885.94
is 885, so the code returns `[0, 885, -885]`. -/
theorem C3_counterexample :
    OmniDrive.calculate_wheel_speeds 0 1 0 ≠ [0, 886, -886] := by
  rw [calc_0_1_0]
  decide

/-- C3 (amended): `calculate_wheel_speeds(0, 1, 0)` returns
`[0, 885, -885]`, and each wheel's value equals the truncation toward
zero of `(vx*cos(theta) + vy*sin(theta) + omega) * 1023` for theta in
{0, 2π/3, 4π/3}, before clamping. -/
theorem C3_amended :
    OmniDrive.calculate_wheel_speeds 0 1 0 = [0, 885, -885] ∧
    OmniDrive.wheel_angles.map
      (fun angle => OmniDrive.pyInt ((0 * Real.cos angle + 1 * Real.sin angle + 0) * 1023))
      = [0, 885, -885] :=
  ⟨calc_0_1_0, truncation_map_0_1_0⟩

/-- A wheel whose scaled value exceeds the 1023 scaling saturates high. -/
lemma wheelSpeedAt_sat_hi (vx vy omega angle : ℝ)
    (h : 1 < vx * Real.cos angle + vy * Real.sin angle + omega) :
    OmniDrive.wheelSpeedAt vx vy omega angle = 1023 := by
  have hx : (1023 : ℝ) < (vx * Real.cos angle + vy * Real.sin angle + omega) * 1023 := by
    nlinarith
  have hnn : (0 : ℝ) ≤ (vx * Real.cos angle + vy * Real.sin angle + omega) * 1023 := by
    nlinarith
  have hge : (1023 : ℤ) ≤
      OmniDrive.pyInt ((vx * Real.cos angle + vy * Real.sin angle + omega) * 1023) := by
    rw [pyInt_of_nonneg _ hnn]
    exact Int.le_floor.mpr (by push_cast; linarith)
  simp only [OmniDrive.wheelSpeedAt, OmniDrive.max_speed]
  rw [min_eq_left hge]
  exact max_eq_right (by norm_num)

/-- A wheel whose scaled value falls below the -1023 scaling saturates
low. -/
lemma wheelSpeedAt_sat_lo (vx vy omega angle : ℝ)
    (h : vx * Real.cos angle + vy * Real.sin angle + omega < -1) :
    OmniDrive.wheelSpeedAt vx vy omega angle = -1023 := by
  have hx : (vx * Real.cos angle + vy * Real.sin angle + omega) * 1023 < -1023 := by
    nlinarith
  have hneg : (vx * Real.cos angle + vy * Real.sin angle + omega) * 1023 < 0 := by
    nlinarith
  have hle : OmniDrive.pyInt ((vx * Real.cos angle + vy * Real.sin angle + omega) * 1023)
      ≤ (-1023 : ℤ) := by
    rw [pyInt_of_neg _ hneg]
    exact Int.ceil_le.mpr (by push_cast; linarith)
  simp only [OmniDrive.wheelSpeedAt, OmniDrive.max_speed]
  rw [min_eq_right (le_trans hle (by norm_num))]
  exact max_eq_left hle

/-- C6 counterexample: at input (0, 2, 0) the second wheel's raw value
`vx*cos(2π/3) + vy*sin(2π/3) + omega = √3` exceeds 1, yet the computed
speed is 885, not 1023 — because the code clamps vx, vy, omega to
[-1, 1] before computing the raw value. -/
theorem C6_counterexample :
    1 < 0 * Real.cos (2 * Real.pi / 3) + 2 * Real.sin (2 * Real.pi / 3) + 0 ∧
    (OmniDrive.calculate_wheel_speeds 0 2 0).getD 1 0 ≠ 1023 := by
  constructor
  · rw [sin_second_angle]
    have h := sqrt3_lb
    nlinarith
  · rw [calc_0_2_0]
    decide

/-- C6 (amended): for every input and every wheel angle, if the wheel's
raw value computed from the clamped inputs exceeds 1.0 (respectively is
below -1.0), that wheel's computed speed is exactly 1023 (respectively
-1023), independently of the other wheels; `calculate_wheel_speeds` is
the per-wheel map of this loop body over the three fixed angles. -/
theorem C6_amended (vx vy omega angle : ℝ) :
    (1 < OmniDrive.clampR (-1) 1 vx * Real.cos angle
          + OmniDrive.clampR (-1) 1 vy * Real.sin angle
          + OmniDrive.clampR (-1) 1 omega →
      OmniDrive.wheelSpeedAt (OmniDrive.clampR (-1) 1 vx)
        (OmniDrive.clampR (-1) 1 vy) (OmniDrive.clampR (-1) 1 omega) angle = 1023) ∧
    (OmniDrive.clampR (-1) 1 vx * Real.cos angle
          + OmniDrive.clampR (-1) 1 vy * Real.sin angle
          + OmniDrive.clampR (-1) 1 omega < -1 →
      OmniDrive.wheelSpeedAt (OmniDrive.clampR (-1) 1 vx)
        (OmniDrive.clampR (-1) 1 vy) (OmniDrive.clampR (-1) 1 omega) angle = -1023) ∧
    OmniDrive.calculate_wheel_speeds vx vy omega
      = OmniDrive.wheel_angles.map
          (OmniDrive.wheelSpeedAt (OmniDrive.clampR (-1) 1 vx)
            (OmniDrive.clampR (-1) 1 vy) (OmniDrive.clampR (-1) 1 omega)) := by
  refine ⟨fun h => wheelSpeedAt_sat_hi _ _ _ _ h,
    fun h => wheelSpeedAt_sat_lo _ _ _ _ h, rfl⟩

/-- C6 witness: at input (1, 0, 1) the first wheel's clamped raw value is
2 > 1 and its computed speed is exactly 1023. -/
theorem C6_witness :
    OmniDrive.wheelSpeedAt (OmniDrive.clampR (-1) 1 1) (OmniDrive.clampR (-1) 1 0)
      (OmniDrive.clampR (-1) 1 1) 0 = 1023 :=
  (C6_amended 1 0 1 0).1 (by
    rw [clampR_eval_one, clampR_eval_zero]
    simp [Real.cos_zero, Real.sin_zero])

/-- The checksum computed over the packet minus its two header bytes. -/
lemma checksum_drop (motorId len command : Nat) (data : List Nat) :
    STS3215Motor.calculateChecksum
      (([0xFF, 0xFF, motorId, len, command] ++ data).drop 2)
      = (motorId + len + command + data.sum) % 256 := by
  have h : ([0xFF, 0xFF, motorId, len, command] ++ data).drop 2
      = motorId :: len :: command :: data := rfl
  rw [h]
  simp only [STS3215Motor.calculateChecksum, List.sum_cons]
  omega

/-- C2: for every destination id, command code and payload, the encoded
packet is `[0xFF, 0xFF, id, length, command] ++ payload ++ [checksum]`
with `length = len(payload) + 2` and
`checksum = (id + length + command + sum(payload)) mod 256`; in
particular for payload `[0x00, 0x01]`, id 1, command 0x03 the packet is
`FF FF 01 04 03 00 01 09`. -/
theorem C2_packet (motorId command : Nat) (payload : List Nat) :
    STS3215Motor.buildPacket motorId command payload
      = [0xFF, 0xFF, motorId, payload.length + 2, command] ++ payload
        ++ [(motorId + (payload.length + 2) + command + payload.sum) % 256] ∧
    STS3215Motor.buildPacket 1 0x03 [0x00, 0x01]
      = [0xFF, 0xFF, 1, 4, 3, 0, 1, 9] := by
  refine ⟨?_, by decide⟩
  simp only [STS3215Motor.buildPacket]
  rw [checksum_drop]

/-- `OmniDrive.move` written out: it always reports success and stores
into each servo the commanded position `2048 + wheel_speed // 2` and the
commanded speed `abs(wheel_speed)`. -/
lemma move_spec (vx vy omega : ℝ) (st : OmniState) :
    OmniDrive.move vx vy omega st
      = (true,
         ⟨{ st.s0 with
              current_position :=
                2048 + Int.fdiv ((OmniDrive.calculate_wheel_speeds vx vy omega).getD 0 0) 2,
              current_speed := |(OmniDrive.calculate_wheel_speeds vx vy omega).getD 0 0| },
          { st.s1 with
              current_position :=
                2048 + Int.fdiv ((OmniDrive.calculate_wheel_speeds vx vy omega).getD 1 0) 2,
              current_speed := |(OmniDrive.calculate_wheel_speeds vx vy omega).getD 1 0| },
          { st.s2 with
              current_position :=
                2048 + Int.fdiv ((OmniDrive.calculate_wheel_speeds vx vy omega).getD 2 0) 2,
              current_speed := |(OmniDrive.calculate_wheel_speeds vx vy omega).getD 2 0| }⟩) := by
  simp [OmniDrive.move, ServoMotor.set_position]

/-- Components of `calculate_wheel_speeds` as the loop body at each fixed
angle applied to the clamped inputs. -/
lemma calc_getD (vx vy omega : ℝ) :
    ((OmniDrive.calculate_wheel_speeds vx vy omega).getD 0 0
        = OmniDrive.wheelSpeedAt (OmniDrive.clampR (-1) 1 vx)
            (OmniDrive.clampR (-1) 1 vy) (OmniDrive.clampR (-1) 1 omega) 0) ∧
    ((OmniDrive.calculate_wheel_speeds vx vy omega).getD 1 0
        = OmniDrive.wheelSpeedAt (OmniDrive.clampR (-1) 1 vx)
            (OmniDrive.clampR (-1) 1 vy) (OmniDrive.clampR (-1) 1 omega)
            (2 * Real.pi / 3)) ∧
    ((OmniDrive.calculate_wheel_speeds vx vy omega).getD 2 0
        = OmniDrive.wheelSpeedAt (OmniDrive.clampR (-1) 1 vx)
            (OmniDrive.clampR (-1) 1 vy) (OmniDrive.clampR (-1) 1 omega)
            (4 * Real.pi / 3)) :=
  ⟨rfl, rfl, rfl⟩

/-- Every wheel speed produced by the loop body lies in [-1023, 1023]. -/
lemma wheelSpeedAt_range (vx vy omega angle : ℝ) :
    -1023 ≤ OmniDrive.wheelSpeedAt vx vy omega angle ∧
      OmniDrive.wheelSpeedAt vx vy omega angle ≤ 1023 := by
  simp only [OmniDrive.wheelSpeedAt, OmniDrive.max_speed]
  exact ⟨le_max_left _ _, max_le (by norm_num) (min_le_left _ _)⟩

/-- C4: for every drive input, each wheel speed produced by the
kinematics lies in [-1023, 1023] and `move` issues
`speed_cmd = abs(s)` and `position_cmd = 2048 + floor(s / 2)` (floor
division toward negative infinity) to the corresponding servo; in
particular `2048 + floor(-7 / 2) = 2044` and `abs(-7) = 7`. -/
theorem C4_position_speed_split (vx vy omega : ℝ) (st : OmniState) :
    ((OmniDrive.move vx vy omega st).2.s0.current_position
        = 2048 + Int.fdiv ((OmniDrive.calculate_wheel_speeds vx vy omega).getD 0 0) 2) ∧
    ((OmniDrive.move vx vy omega st).2.s0.current_speed
        = |(OmniDrive.calculate_wheel_speeds vx vy omega).getD 0 0|) ∧
    ((OmniDrive.move vx vy omega st).2.s1.current_position
        = 2048 + Int.fdiv ((OmniDrive.calculate_wheel_speeds vx vy omega).getD 1 0) 2) ∧
    ((OmniDrive.move vx vy omega st).2.s1.current_speed
        = |(OmniDrive.calculate_wheel_speeds vx vy omega).getD 1 0|) ∧
    ((OmniDrive.move vx vy omega st).2.s2.current_position
        = 2048 + Int.fdiv ((OmniDrive.calculate_wheel_speeds vx vy omega).getD 2 0) 2) ∧
    ((OmniDrive.move vx vy omega st).2.s2.current_speed
        = |(OmniDrive.calculate_wheel_speeds vx vy omega).getD 2 0|) ∧
    (-1023 ≤ (OmniDrive.calculate_wheel_speeds vx vy omega).getD 0 0 ∧
      (OmniDrive.calculate_wheel_speeds vx vy omega).getD 0 0 ≤ 1023) ∧
    (-1023 ≤ (OmniDrive.calculate_wheel_speeds vx vy omega).getD 1 0 ∧
      (OmniDrive.calculate_wheel_speeds vx vy omega).getD 1 0 ≤ 1023) ∧
    (-1023 ≤ (OmniDrive.calculate_wheel_speeds vx vy omega).getD 2 0 ∧
      (OmniDrive.calculate_wheel_speeds vx vy omega).getD 2 0 ≤ 1023) ∧
    (2048 + Int.fdiv (-7) 2 = (2044 : ℤ)) ∧ |(-7 : ℤ)| = 7 := by
  have hm := move_spec vx vy omega st
  have hg := calc_getD vx vy omega
  refine ⟨by rw [hm], by rw [hm], by rw [hm], by rw [hm], by rw [hm], by rw [hm],
    ?_, ?_, ?_, by decide, by decide⟩
  · rw [hg.1]
    exact wheelSpeedAt_range _ _ _ _
  · rw [hg.2.1]
    exact wheelSpeedAt_range _ _ _ _
  · rw [hg.2.2]
    exact wheelSpeedAt_range _ _ _ _

/-- C9: `move_forward(0.5)` is exactly `move(0, 0.5, 0)`, and the three
(position, speed) pairs it issues are the ones obtained by computing
`calculate_wheel_speeds(0, 0.5, 0)` and applying the position/speed
split directly. -/
theorem C9_move_forward_equiv (st : OmniState) :
    OmniDrive.move_forward 0.5 st = OmniDrive.move 0 0.5 0 st ∧
    ((OmniDrive.move_forward 0.5 st).2.s0.current_position
        = 2048 + Int.fdiv ((OmniDrive.calculate_wheel_speeds 0 0.5 0).getD 0 0) 2) ∧
    ((OmniDrive.move_forward 0.5 st).2.s0.current_speed
        = |(OmniDrive.calculate_wheel_speeds 0 0.5 0).getD 0 0|) ∧
    ((OmniDrive.move_forward 0.5 st).2.s1.current_position
        = 2048 + Int.fdiv ((OmniDrive.calculate_wheel_speeds 0 0.5 0).getD 1 0) 2) ∧
    ((OmniDrive.move_forward 0.5 st).2.s1.current_speed
        = |(OmniDrive.calculate_wheel_speeds 0 0.5 0).getD 1 0|) ∧
    ((OmniDrive.move_forward 0.5 st).2.s2.current_position
        = 2048 + Int.fdiv ((OmniDrive.calculate_wheel_speeds 0 0.5 0).getD 2 0) 2) ∧
    ((OmniDrive.move_forward 0.5 st).2.s2.current_speed
        = |(OmniDrive.calculate_wheel_speeds 0 0.5 0).getD 2 0|) := by
  have hm := move_spec 0 0.5 0 st
  have he : OmniDrive.move_forward 0.5 st = OmniDrive.move 0 0.5 0 st := rfl
  exact ⟨rfl, by rw [he, hm], by rw [he, hm], by rw [he, hm], by rw [he, hm],
    by rw [he, hm], by rw [he, hm]⟩

/-- C10: `OmniDrive.move` returns `True` for every input and state,
because `ServoMotor.set_position` (the operation it issues) returns
`True` unconditionally, without consulting the connection state or the
transport. -/
theorem C10_move_always_true (vx vy omega : ℝ) (st : OmniState)
    (sst : ServoState) (position : Int) (speed : Option Int) :
    (OmniDrive.move vx vy omega st).1 = true ∧
    (ServoMotor.set_position sst position speed).1 = true :=
  ⟨by rw [move_spec], rfl⟩

/- Concrete driver states and transports used by the concrete claims. -/

/-- A freshly constructed (disconnected) `ServoMotor` state with id 1. -/
def servoDisconnected : ServoState := ⟨1, false, false, 0, 0⟩

/-- A connected `ServoMotor` state with id 1. -/
def servoConnected : ServoState := ⟨1, true, true, 0, 0⟩

/-- A freshly constructed (disconnected) `STS3215Motor` state with id 1. -/
def stsDisconnected : STSState := ⟨1, false, false, 0, 0⟩

/-- A connected `STS3215Motor` state with id 1. -/
def stsConnected : STSState := ⟨1, true, true, 0, 0⟩

/-- A transport where every operation succeeds and no response bytes ever
arrive. -/
def trNull : Transport := ⟨.ok (), .ok (), fun _ => .ok none⟩

/-- A transport where opening the port fails. -/
def trOpenFail : Transport := ⟨.error .ioError, .ok (), fun _ => .ok none⟩

/-- A transport where every operation raises a serial exception. -/
def trAllFail : Transport :=
  ⟨.error .ioError, .error .ioError, fun _ => .error .ioError⟩

/-- Open outcomes for a three-driver group whose second connection
attempt fails. -/
def trsSecondFails : Nat → Transport :=
  fun i => if i = 1 then trOpenFail else trNull

/-- Three freshly constructed servos with ids 1, 2, 3 in registration
order. -/
def servosThree : List ServoState :=
  [⟨1, false, false, 0, 0⟩, ⟨2, false, false, 0, 0⟩, ⟨3, false, false, 0, 0⟩]

/- C1: commands while disconnected. -/

/-- When a driver is disconnected, `STS3215Motor._send_command` returns
`None` without writing anything. -/
lemma sendCommand_disconnected (st : STSState) (tr : Transport) (c : Nat)
    (d : List Nat) (h : st.is_connected = false) :
    STS3215Motor.sendCommand st tr c d = (none, []) := by
  simp [STS3215Motor.sendCommand, h]

/-- C1 counterexample: a disconnected `ServoMotor` still reports success
from `set_position` — the `ServoMotor` variant has no connection check,
so the claim fails for it (no transport bytes are involved either way). -/
theorem C1_counterexample :
    servoDisconnected.is_connected = false ∧
    (ServoMotor.set_position servoDisconnected 100 none).1 = true :=
  ⟨rfl, rfl⟩

/-- C1 (amended): for the `STS3215Motor` variant, every operation
(`set_position`, `set_speed`, `get_position`, `get_speed`, `stop`,
`set_id`) invoked while the connected flag is false fails immediately
and writes nothing to the transport; the `ServoMotor` variant's stub
operations never touch the transport but report success regardless of
the connection state. -/
theorem C1_amended (st : STSState) (tr : Transport) (position speed : Int)
    (newId : Nat) (h : st.is_connected = false) :
    ((STS3215Motor.set_position st tr position).1 = false ∧
      (STS3215Motor.set_position st tr position).2.2 = []) ∧
    ((STS3215Motor.set_speed st tr speed).1 = false ∧
      (STS3215Motor.set_speed st tr speed).2.2 = []) ∧
    ((STS3215Motor.get_position st tr).1 = none ∧
      (STS3215Motor.get_position st tr).2.2 = []) ∧
    ((STS3215Motor.get_speed st tr).1 = none ∧
      (STS3215Motor.get_speed st tr).2.2 = []) ∧
    ((STS3215Motor.stop st tr).1 = false ∧
      (STS3215Motor.stop st tr).2 = []) ∧
    ((STS3215Motor.set_id st tr newId).1 = false ∧
      (STS3215Motor.set_id st tr newId).2.2 = []) := by
  have hsend := fun c d => sendCommand_disconnected st tr c d h
  refine ⟨?_, ?_, ?_, ?_, ?_, ?_⟩ <;>
    simp [STS3215Motor.set_position, STS3215Motor.set_speed,
      STS3215Motor.get_position, STS3215Motor.get_speed, STS3215Motor.stop,
      STS3215Motor.set_id, hsend, STS3215Motor.isTruthy]

/-- C1 witness: the amended claim at a concrete disconnected motor, a
concrete transport, position 100, speed 200 and new id 5. -/
theorem C1_witness :
    stsDisconnected.is_connected = false ∧
    (((STS3215Motor.set_position stsDisconnected trNull 100).1 = false ∧
      (STS3215Motor.set_position stsDisconnected trNull 100).2.2 = []) ∧
    ((STS3215Motor.set_speed stsDisconnected trNull 200).1 = false ∧
      (STS3215Motor.set_speed stsDisconnected trNull 200).2.2 = []) ∧
    ((STS3215Motor.get_position stsDisconnected trNull).1 = none ∧
      (STS3215Motor.get_position stsDisconnected trNull).2.2 = []) ∧
    ((STS3215Motor.get_speed stsDisconnected trNull).1 = none ∧
      (STS3215Motor.get_speed stsDisconnected trNull).2.2 = []) ∧
    ((STS3215Motor.stop stsDisconnected trNull).1 = false ∧
      (STS3215Motor.stop stsDisconnected trNull).2 = []) ∧
    ((STS3215Motor.set_id stsDisconnected trNull 5).1 = false ∧
      (STS3215Motor.set_id stsDisconnected trNull 5).2.2 = [])) :=
  ⟨rfl, C1_amended stsDisconnected trNull 100 200 5 rfl⟩

/- C5: set_position range validation. -/

/-- When the driver is connected, `_send_command` writes exactly the
encoded packet (whatever the response outcome). -/
lemma sendCommand_writes (st : STSState) (tr : Transport) (c : Nat)
    (d : List Nat) (hc : st.is_connected = true) (hs : st.has_serial = true) :
    (STS3215Motor.sendCommand st tr c d).2
      = [STS3215Motor.buildPacket st.motor_id c d] := by
  simp only [STS3215Motor.sendCommand, hc, hs, Bool.not_true, Bool.or_self,
    Bool.false_eq_true, if_false]
  cases tr.send (STS3215Motor.buildPacket st.motor_id c d) <;> rfl

/-- An in-range `set_position` on a connected driver writes exactly the
encoded `SET_POSITION` packet. -/
lemma set_position_writes (st : STSState) (tr : Transport) (position : Int)
    (hc : st.is_connected = true) (hs : st.has_serial = true)
    (h0 : 0 ≤ position) (h1 : position ≤ 4095) :
    (STS3215Motor.set_position st tr position).2.2
      = [STS3215Motor.buildPacket st.motor_id STS3215Motor.CMD_SET_POSITION
          (STS3215Motor.toBytesLE2 position.toNat)] := by
  have hcond : (decide (position < 0) || decide (4095 < position)) = false := by
    simp [not_lt.mpr h0, not_lt.mpr h1]
  simp only [STS3215Motor.set_position, hcond, Bool.false_eq_true, if_false]
  cases hT : STS3215Motor.isTruthy
      (STS3215Motor.sendCommand st tr STS3215Motor.CMD_SET_POSITION
        (STS3215Motor.toBytesLE2 position.toNat)).1 <;>
    simp [hT, sendCommand_writes st tr _ _ hc hs]

/-- C5 counterexample: `ServoMotor.set_position(4096)` and
`ServoMotor.set_position(-1)` both report success — the range check does
not apply to the `ServoMotor` variant. -/
theorem C5_counterexample :
    (ServoMotor.set_position servoDisconnected 4096 none).1 = true ∧
    (ServoMotor.set_position servoDisconnected (-1) none).1 = true :=
  ⟨rfl, rfl⟩

/-- C5 (amended): for the `STS3215Motor` variant, `set_position(4096)`
and `set_position(-1)` fail without any transport write, while
`set_position(4095)` and `set_position(0)` pass validation and write
their encoded packets; the `ServoMotor` variant performs no range
validation and reports success for any position. -/
theorem C5_amended (st : STSState) (tr : Transport) (sst : ServoState)
    (hc : st.is_connected = true) (hs : st.has_serial = true) :
    ((STS3215Motor.set_position st tr 4096).1 = false ∧
      (STS3215Motor.set_position st tr 4096).2.2 = []) ∧
    ((STS3215Motor.set_position st tr (-1)).1 = false ∧
      (STS3215Motor.set_position st tr (-1)).2.2 = []) ∧
    ((STS3215Motor.set_position st tr 4095).2.2
        = [STS3215Motor.buildPacket st.motor_id STS3215Motor.CMD_SET_POSITION
            [0xFF, 0x0F]]) ∧
    ((STS3215Motor.set_position st tr 0).2.2
        = [STS3215Motor.buildPacket st.motor_id STS3215Motor.CMD_SET_POSITION
            [0x00, 0x00]]) ∧
    (ServoMotor.set_position sst 4096 none).1 = true ∧
    (ServoMotor.set_position sst (-1) none).1 = true := by
  refine ⟨⟨?_, ?_⟩, ⟨?_, ?_⟩, ?_, ?_, rfl, rfl⟩
  · simp [STS3215Motor.set_position]
  · simp [STS3215Motor.set_position]
  · simp [STS3215Motor.set_position]
  · simp [STS3215Motor.set_position]
  · exact set_position_writes st tr 4095 hc hs (by norm_num) (by norm_num)
  · exact set_position_writes st tr 0 hc hs le_rfl (by norm_num)

/-- C5 witness: the amended claim at a concrete connected motor and the
all-succeeding no-response transport. -/
theorem C5_witness :
    stsConnected.is_connected = true ∧ stsConnected.has_serial = true ∧
    (((STS3215Motor.set_position stsConnected trNull 4096).1 = false ∧
      (STS3215Motor.set_position stsConnected trNull 4096).2.2 = []) ∧
    ((STS3215Motor.set_position stsConnected trNull (-1)).1 = false ∧
      (STS3215Motor.set_position stsConnected trNull (-1)).2.2 = []) ∧
    ((STS3215Motor.set_position stsConnected trNull 4095).2.2
        = [STS3215Motor.buildPacket stsConnected.motor_id
            STS3215Motor.CMD_SET_POSITION [0xFF, 0x0F]]) ∧
    ((STS3215Motor.set_position stsConnected trNull 0).2.2
        = [STS3215Motor.buildPacket stsConnected.motor_id
            STS3215Motor.CMD_SET_POSITION [0x00, 0x00]]) ∧
    (ServoMotor.set_position servoConnected 4096 none).1 = true ∧
    (ServoMotor.set_position servoConnected (-1) none).1 = true) :=
  ⟨rfl, rfl, C5_amended stsConnected trNull servoConnected rfl rfl⟩

/- C7: connect_all semantics. -/

/-- Unfolding of the `ServoController.connect_all` loop: every servo from
position `i` on is attempted (in order), each ends in the state its own
`connect` produces, and the accumulated flag is the conjunction of the
individual outcomes. -/
lemma servo_connectAllAux_spec (servos : List ServoState)
    (trs : Nat → Transport) (i : Nat) (success : Bool) :
    ServoController.connectAllAux servos trs i success
      = (success &&
          (servos.enumFrom i).all (fun p => (ServoMotor.connect p.2 (trs p.1)).1),
         (servos.enumFrom i).map (fun p => (ServoMotor.connect p.2 (trs p.1)).2)) := by
  induction servos generalizing i success with
  | nil => simp [ServoController.connectAllAux]
  | cons s rest ih =>
    simp [ServoController.connectAllAux, ih, Bool.and_assoc]

/-- Unfolding of the `MotorController.connect_all` loop, as for the servo
variant. -/
lemma motor_connectAllAux_spec (motors : List STSState)
    (trs : Nat → Transport) (i : Nat) (success : Bool) :
    MotorController.connectAllAux motors trs i success
      = (success &&
          (motors.enumFrom i).all (fun p => (STS3215Motor.connect p.2 (trs p.1)).1),
         (motors.enumFrom i).map (fun p => (STS3215Motor.connect p.2 (trs p.1)).2)) := by
  induction motors generalizing i success with
  | nil => simp [MotorController.connectAllAux]
  | cons m rest ih =>
    simp [MotorController.connectAllAux, ih, Bool.and_assoc]

/-- C7: `connect_all` attempts every registered driver in registration
order, returns true exactly when every driver connected, and each
driver's final state is its own connect outcome (no rollback); in the
three-driver group where the second connection fails it returns false,
the first driver stays connected, and the third driver's attempt is
still performed (it ends connected). -/
theorem C7_connect_all (servos : List ServoState) (motors : List STSState)
    (trs : Nat → Transport) :
    ((ServoController.connect_all servos trs).1
        = (servos.enumFrom 0).all (fun p => (ServoMotor.connect p.2 (trs p.1)).1)) ∧
    ((ServoController.connect_all servos trs).2
        = (servos.enumFrom 0).map (fun p => (ServoMotor.connect p.2 (trs p.1)).2)) ∧
    ((MotorController.connect_all motors trs).1
        = (motors.enumFrom 0).all (fun p => (STS3215Motor.connect p.2 (trs p.1)).1)) ∧
    ((MotorController.connect_all motors trs).2
        = (motors.enumFrom 0).map (fun p => (STS3215Motor.connect p.2 (trs p.1)).2)) ∧
    ((ServoController.connect_all servosThree trsSecondFails).1 = false) ∧
    ((ServoController.connect_all servosThree trsSecondFails).2
        = [⟨1, true, true, 0, 0⟩, ⟨2, false, false, 0, 0⟩, ⟨3, true, true, 0, 0⟩]) := by
  refine ⟨?_, ?_, ?_, ?_, by decide, by decide⟩
  · rw [ServoController.connect_all, servo_connectAllAux_spec]
    simp
  · rw [ServoController.connect_all, servo_connectAllAux_spec]
  · rw [MotorController.connect_all, motor_connectAllAux_spec]
    simp
  · rw [MotorController.connect_all, motor_connectAllAux_spec]

/- C8: transport exceptions at the driver boundary. -/

/-- C8 counterexample: on both variants, `disconnect` of a connected
driver whose `close()` raises propagates the exception to the caller —
the source wraps `close()` in no `try/except`. -/
theorem C8_counterexample :
    ServoMotor.disconnect servoConnected trAllFail
        = Except.error TransportErr.ioError ∧
    STS3215Motor.disconnect stsConnected trAllFail
        = Except.error TransportErr.ioError :=
  ⟨rfl, rfl⟩

/-- C8 (amended): transport exceptions raised during `connect` or during
any command send/read are caught inside the driver and converted into a
failure return with the local state unchanged, for both variants; only
`disconnect` lets a transport exception (from `close()`) propagate. -/
theorem C8_amended (sst : ServoState) (st : STSState)
    (commandBytes : List Nat) (position speed : Int) (newId : Nat) :
    (ServoMotor.connect sst trAllFail).1 = false ∧
    (ServoMotor.sendCommand sst trAllFail commandBytes).1 = none ∧
    (STS3215Motor.connect st trAllFail).1 = false ∧
    ((STS3215Motor.set_position st trAllFail position).1 = false ∧
      (STS3215Motor.set_position st trAllFail position).2.1 = st) ∧
    ((STS3215Motor.set_speed st trAllFail speed).1 = false ∧
      (STS3215Motor.set_speed st trAllFail speed).2.1 = st) ∧
    ((STS3215Motor.get_position st trAllFail).1 = none ∧
      (STS3215Motor.get_position st trAllFail).2.1 = st) ∧
    ((STS3215Motor.get_speed st trAllFail).1 = none ∧
      (STS3215Motor.get_speed st trAllFail).2.1 = st) ∧
    (STS3215Motor.stop st trAllFail).1 = false ∧
    (STS3215Motor.set_id st trAllFail newId).1 = false := by
  have hsend : ∀ c d, (STS3215Motor.sendCommand st trAllFail c d).1 = none := by
    intro c d
    simp only [STS3215Motor.sendCommand, trAllFail]
    split <;> rfl
  have hservo : (ServoMotor.sendCommand sst trAllFail commandBytes).1 = none := by
    simp only [ServoMotor.sendCommand, trAllFail]
    split <;> rfl
  refine ⟨rfl, hservo, rfl, ?_, ?_, ?_, ?_, ?_, ?_⟩
  · constructor <;>
      (simp [STS3215Motor.set_position, STS3215Motor.isTruthy, hsend]
       split <;> rfl)
  · constructor <;>
      (simp [STS3215Motor.set_speed, STS3215Motor.isTruthy, hsend]
       split <;> rfl)
  · constructor <;>
      simp [STS3215Motor.get_position, STS3215Motor.isTruthy, hsend]
  · constructor <;>
      simp [STS3215Motor.get_speed, STS3215Motor.isTruthy, hsend]
  · simp [STS3215Motor.stop, STS3215Motor.isTruthy, hsend]
  · simp [STS3215Motor.set_id, STS3215Motor.isTruthy, hsend]
    split <;> rfl
